import Mathlib

/-!
Verification of the email-status reconciliation engine of the
veeam-notify-alma repository (src/app/email_service.py, src/app/models.py).

The Python code is shallowly embedded: pure helpers become Lean functions,
the database-backed `Client` and `EmailConfig` records become structures,
time-zoned `datetime` values become wall-clock pairs (absolute day index,
microsecond of day) — which is exactly how Python's aware-datetime
`replace`, `timedelta` arithmetic and comparison behave within a single
fixed-offset zone — and the IMAP transport becomes an explicit environment
value (`ScanEnv`): either a list of fetch results or a failure raised after
a number of processed clients, mirroring the `try`/`except` block of
`run_email_checks`.  Python truthiness of optional strings and integers is
modelled explicitly (`pyTruthyS`, `pyTruthyI`, ...).
-/

/-- Wall-clock instant in the configured zone: absolute day index and
microsecond of day.  `datetime.replace(hour=h, minute=0, second=0,
microsecond=0)` keeps the day and sets the microsecond-of-day;
`dt - timedelta(days=1)` decrements the day; comparison is lexicographic. -/
structure DateTime where
  day : Int
  usec : Int
deriving DecidableEq, Repr

/-- Strict comparison of two instants (Python `<` on same-zone datetimes). -/
def dtLt (a b : DateTime) : Bool :=
  a.day < b.day || (a.day = b.day && a.usec < b.usec)

/-- Non-strict comparison of two instants. -/
def dtLe (a b : DateTime) : Bool :=
  a.day < b.day || (a.day = b.day && a.usec ≤ b.usec)

/-- `dt.replace(hour=h, minute=0, second=0, microsecond=0)`. -/
def replaceTime (d : DateTime) (hour : Int) : DateTime :=
  ⟨d.day, hour * 3600000000⟩

/-- `dt - timedelta(days=1)` on an aware datetime: same wall clock, previous day. -/
def subOneDay (d : DateTime) : DateTime :=
  ⟨d.day - 1, d.usec⟩

/-- A configured hour field as seen by `int(value)`: either a value `int`
accepts (an integer, including one parsed from a numeric string) or one
that raises `TypeError`/`ValueError` (`None`, non-numeric text). -/
inductive HourInput where
  | nonNumeric : HourInput
  | numeric : Int → HourInput
deriving DecidableEq, Repr

/-- src/app/email_service.py lines 30-35: `int(value)` with the failure
branch returning the default, then `max(0, min(23, hour))`. -/
def _sanitize_hour (value : HourInput) (default : Int) : Int :=
  match value with
  | .nonNumeric => default
  | .numeric hour => max 0 (min 23 hour)

/-- Default window start hour (module constant). -/
def DEFAULT_WINDOW_START_HOUR : Int := 16

/-- Default window end hour (module constant). -/
def DEFAULT_WINDOW_END_HOUR : Int := 9

/-- Status constants from src/app/models.py lines 10-13. -/
def STATUS_OK : String := "OK"

/-- Aggregator-level "nothing matched" status. -/
def STATUS_MISSING : String := "Non reçu"

/-- Failed severity constant. -/
def STATUS_FAILED : String := "Failed"

/-- Warning severity constant. -/
def STATUS_WARNING : String := "Warning"

/-- The `Client` database row: the matching rules (four expected-subject
fields, nullable) and the six output fields written by the engine.
`last_email_count` is a non-negative integer column. -/
structure Client where
  name : String
  expected_subject : Option String
  expected_subject_ok : Option String
  expected_subject_warning : Option String
  expected_subject_failed : Option String
  last_status : String
  last_checked_at : Option DateTime
  last_note : Option String
  last_subject : Option String
  last_statuses : Option String
  last_email_count : Nat
deriving DecidableEq, Repr

/-- Python `str.lower()`: lowercase every character. -/
def pyLower (s : String) : String :=
  ⟨s.data.map Char.toLower⟩

/-- Python `str.strip()`: drop leading and trailing whitespace. -/
def pyStrip (s : String) : String :=
  ⟨((s.data.dropWhile Char.isWhitespace).reverse.dropWhile Char.isWhitespace).reverse⟩

/-- Python `s.startswith(pre)`. -/
def pyStartsWith (s pre : String) : Bool :=
  pre.data.isPrefixOf s.data

/-- Split a character list at every delimiter character, keeping empty
parts (Python `re.split` on a character class produces empty parts for
leading, trailing and adjacent delimiters). -/
def splitCharList (p : Char → Bool) : List Char → List Char → List String
  | [], acc => [⟨acc.reverse⟩]
  | ch :: rest, acc =>
      if p ch then ⟨acc.reverse⟩ :: splitCharList p rest []
      else splitCharList p rest (ch :: acc)

/-- Python `a or b` for an optional string `a`: falsy (`None` or `""`)
falls through to `b`. -/
def pyOrOS (a : Option String) (b : Option String) : Option String :=
  match a with
  | none => b
  | some s => if s = "" then b else some s

/-- Python truthiness of an optional string: `None` and `""` are falsy. -/
def pyTruthyS (a : Option String) : Bool :=
  match a with
  | none => false
  | some s => s ≠ ""

/-- Python truthiness of an optional integer: `None` and `0` are falsy. -/
def pyTruthyI (a : Option Int) : Bool :=
  match a with
  | none => false
  | some n => n ≠ 0

/-- Python `opt or d` producing a plain string. -/
def pyOrStr (a : Option String) (d : String) : String :=
  match a with
  | none => d
  | some s => if s = "" then d else s

/-- `Client.subject_ok` property (models.py lines 39-41):
`(self.expected_subject_ok or self.expected_subject or "").strip()`. -/
def Client.subject_ok (c : Client) : String :=
  pyStrip ((pyOrOS c.expected_subject_ok c.expected_subject).getD "")

/-- `Client.subject_warning` property (models.py lines 43-45). -/
def Client.subject_warning (c : Client) : String :=
  pyStrip (c.expected_subject_warning.getD "")

/-- `Client.subject_failed` property (models.py lines 47-49). -/
def Client.subject_failed (c : Client) : String :=
  pyStrip (c.expected_subject_failed.getD "")

/-- The `for status, expected in expected_pairs` loop of
`extract_status_from_subject`: first pair whose normalized expected string
is non-empty and a leading substring of the normalized subject. -/
def firstStatusMatch (subjectLower : String) : List (String × String) → Option String
  | [] => none
  | (status, expected) :: rest =>
      let expectedLower := pyStrip (pyLower expected)
      if expectedLower ≠ "" && pyStartsWith subjectLower expectedLower then some status
      else firstStatusMatch subjectLower rest

/-- src/app/email_service.py lines 60-73: classify one subject for one
client, testing FAILED, WARNING, OK in that order. -/
def extract_status_from_subject (subject : String) (c : Client) : Option String :=
  let subjectLower := pyStrip (pyLower subject)
  firstStatusMatch subjectLower
    [(STATUS_FAILED, c.subject_failed),
     (STATUS_WARNING, c.subject_warning),
     (STATUS_OK, c.subject_ok)]

/-- Tally of per-severity message counts.  It models the
`status_counts` dict of `find_matching_subject`: a key is only ever
inserted by incrementing, so "key present" coincides with "count
non-zero", and the dict is empty exactly when all three counts are 0. -/
structure StatusCounts where
  failed : Nat
  warning : Nat
  ok : Nat
deriving DecidableEq, Repr

/-- `status_counts[matched_status] = status_counts.get(matched_status, 0) + 1`
(email_service.py line 122); the key is always one of the three severity
constants produced by the classifier. -/
def bumpCount (sc : StatusCounts) (status : String) : StatusCounts :=
  if status = STATUS_FAILED then { sc with failed := sc.failed + 1 }
  else if status = STATUS_WARNING then { sc with warning := sc.warning + 1 }
  else if status = STATUS_OK then { sc with ok := sc.ok + 1 }
  else sc

/-- `status_counts.get(status)` read back as a number (`0` for an absent key). -/
def countOf (sc : StatusCounts) (status : String) : Nat :=
  if status = STATUS_FAILED then sc.failed
  else if status = STATUS_WARNING then sc.warning
  else if status = STATUS_OK then sc.ok
  else 0

/-- `status_order = [STATUS_FAILED, STATUS_WARNING, STATUS_OK]` (line 126). -/
def statusOrder : List String := [STATUS_FAILED, STATUS_WARNING, STATUS_OK]

/-- src/app/email_service.py lines 124-137: given the per-severity tally of
one run, produce `(matched_status, matched_statuses_summary, email_count)`.
The dict-truthiness guard `if status_counts:` is the test that some count
is non-zero. -/
def aggregateStatuses (sc : StatusCounts) : Option String × Option String × Nat :=
  if sc.failed + sc.warning + sc.ok = 0 then (none, none, 0)
  else
    let emailCount := sc.failed + sc.warning + sc.ok
    let overall := statusOrder.find? (fun s => countOf sc s ≠ 0)
    let parts := (statusOrder.filter (fun s => countOf sc s ≠ 0)).map
      (fun s => if countOf sc s > 1 then s ++ " ×" ++ toString (countOf sc s) else s)
    (overall, some (String.intercalate ", " parts), emailCount)

/-- Modelled from the spec's words (§4.4) for comparison with the code:
render one severity of the summary, `SEVERITY` when its count is 1 and
`SEVERITY ×N` when N > 1. -/
def renderSeverity (name : String) (n : Nat) : String :=
  if n > 1 then name ++ " ×" ++ toString n else name

/-- Modelled from the spec's words (§4.4) for comparison with the code:
the comma-joined list of exactly the severities with non-zero count, in
FAILED, WARNING, OK order. -/
def summarySpec (f w o : Nat) : String :=
  String.intercalate ", "
    ((if f > 0 then [renderSeverity STATUS_FAILED f] else []) ++
     (if w > 0 then [renderSeverity STATUS_WARNING w] else []) ++
     (if o > 0 then [renderSeverity STATUS_OK o] else []))

/-- Modelled from the spec's words (§4.2) for comparison with the code:
normalize the subject, then test FAILED, WARNING, OK in fixed priority
order, returning the first severity whose non-empty normalized expected
string starts the subject, else no classification. -/
def classifierSpec (subject : String) (c : Client) : Option String :=
  let ns := pyStrip (pyLower subject)
  let nf := pyStrip (pyLower c.subject_failed)
  let nw := pyStrip (pyLower c.subject_warning)
  let no := pyStrip (pyLower c.subject_ok)
  if nf ≠ "" && pyStartsWith ns nf then some STATUS_FAILED
  else if nw ≠ "" && pyStartsWith ns nw then some STATUS_WARNING
  else if no ≠ "" && pyStartsWith ns no then some STATUS_OK
  else none

/-- One message of the INBOX as the scan loop sees it: either the
`mail.fetch` call did not return "OK" data, or it produced a parsed date
(absent when the Date header is missing or unparsable) and a decoded
subject. -/
inductive FetchResult where
  | fetchFailed : FetchResult
  | fetched : Option DateTime → String → FetchResult
deriving DecidableEq, Repr

/-- Loop state of `find_matching_subject` lines 98-103: the first matched
subject, the diagnostic note, and the per-severity tally. -/
structure ScanState where
  matchedSubject : Option String
  note : Option String
  counts : StatusCounts
deriving DecidableEq, Repr

/-- One iteration of the `for msg_id in reversed(message_ids)` loop
(email_service.py lines 104-122). -/
def processMessage (c : Client) (startTime endTime : DateTime)
    (st : ScanState) (m : FetchResult) : ScanState :=
  match m with
  | .fetchFailed =>
      { st with note := if pyTruthyS st.note then st.note
                        else some "Impossible de récupérer le message." }
  | .fetched none _ =>
      { st with note := if pyTruthyS st.note then st.note
                        else some "Date du message introuvable." }
  | .fetched (some receivedAt) subject =>
      if dtLt receivedAt startTime || dtLt endTime receivedAt then st
      else
        match extract_status_from_subject subject c with
        | none => st
        | some status =>
            { matchedSubject := if st.matchedSubject = none then some subject
                                else st.matchedSubject,
              note := st.note,
              counts := bumpCount st.counts status }

/-- Result tuple of `find_matching_subject`:
`(matched_subject, note, matched_status, matched_statuses_summary, email_count)`. -/
structure FindResult where
  matchedSubject : Option String
  note : Option String
  matchedStatus : Option String
  matchedStatuses : Option String
  emailCount : Nat
deriving DecidableEq, Repr

/-- src/app/email_service.py lines 90-137: scan every message (the server
hands ids oldest-first; the loop iterates them reversed, newest-first),
then aggregate the tally.  When the tally is empty the loop's
`matched_status` is necessarily `None`: a classified message would have
incremented a count. -/
def find_matching_subject (msgs : List FetchResult) (c : Client)
    (startTime endTime : DateTime) : FindResult :=
  let st := msgs.reverse.foldl (processMessage c startTime endTime)
    ⟨none, none, ⟨0, 0, 0⟩⟩
  let r := aggregateStatuses st.counts
  ⟨st.matchedSubject, st.note, r.1, r.2.1, r.2.2⟩

/-- src/app/email_service.py lines 38-41. -/
def get_window_hours (startHourCfg endHourCfg : HourInput) : Int × Int :=
  (_sanitize_hour startHourCfg DEFAULT_WINDOW_START_HOUR,
   _sanitize_hour endHourCfg DEFAULT_WINDOW_END_HOUR)

/-- src/app/email_service.py lines 148-152: the scan window.
`start_time = (now - timedelta(days=1)).replace(hour=start_hour, ...)`,
`end_time_target = now.replace(hour=end_hour, ...)`,
`end_time = end_time_target if end_time_target < now else now`. -/
def computeWindow (now : DateTime) (startHour endHour : Int) : DateTime × DateTime :=
  let startTime := replaceTime (subOneDay now) startHour
  let endTimeTarget := replaceTime now endHour
  (startTime, if dtLt endTimeTarget now then endTimeTarget else now)

/-- The note when nothing matched, email_service.py line 202.  The
`strftime('%d/%m %H:%M')` calendar rendering and the `({tz})` suffix are
abstracted into a deterministic rendering of the wall-clock pair. -/
def noMessageNote (startTime endTime : DateTime) : String :=
  "Aucun message reçu entre " ++ toString startTime.day ++ "/" ++
    toString startTime.usec ++ " et " ++ toString endTime.day ++ "/" ++
    toString endTime.usec ++ " ne correspond au début d'objet attendu."

/-- Write the six output fields of one client from a
`find_matching_subject` result (email_service.py lines 186-204). -/
def applyFindResult (startTime endTime now : DateTime) (r : FindResult)
    (c : Client) : Client :=
  let c1 := { c with last_email_count := r.emailCount,
                     last_statuses := r.matchedStatuses }
  if pyTruthyS r.matchedSubject then
    let c2 := { c1 with last_status := pyOrStr r.matchedStatus STATUS_OK,
                        last_subject := r.matchedSubject,
                        last_note := none }
    let c3 := if pyTruthyS r.matchedStatuses then c2
              else { c2 with last_statuses := r.matchedStatus,
                             last_email_count := 1 }
    { c3 with last_checked_at := some now }
  else
    { c1 with last_status := STATUS_MISSING,
              last_subject := none,
              last_statuses := none,
              last_email_count := 0,
              last_note := some (pyOrStr r.note (noMessageNote startTime endTime)),
              last_checked_at := some now }

/-- The body of the `for client in clients` loop, email_service.py
lines 178-204: scan for the client and write its output fields. -/
def processClient (msgs : List FetchResult) (startTime endTime now : DateTime)
    (c : Client) : Client :=
  applyFindResult startTime endTime now (find_matching_subject msgs c startTime endTime) c

/-- The mailbox configuration fields `run_email_checks` and
`send_status_report` read.  Ports and the SSL flag that only select the
transport flavour are absorbed into the `ScanEnv`/transport outcome. -/
structure EmailConfigM where
  imap_host : Option String
  imap_username : Option String
  imap_password : Option String
  smtp_host : Option String
  smtp_port : Option Int
  smtp_username : Option String
  smtp_password : Option String
  report_recipients : Option String
  check_window_start_hour : HourInput
  check_window_end_hour : HourInput
deriving DecidableEq, Repr

/-- `config.imap_host and config.imap_username and config.imap_password`
all truthy (line 154 negated). -/
def imapConfigComplete (config : EmailConfigM) : Bool :=
  pyTruthyS config.imap_host && pyTruthyS config.imap_username &&
    pyTruthyS config.imap_password

/-- Behaviour of the IMAP transport during one run: either the
connect/login/select/search pipeline and every fetch succeed and the run
sees `msgs`, or an exception is raised after `k` clients of the loop were
already processed (`k = 0` covers a failure at connect/login/search time). -/
inductive ScanEnv where
  | ok : List FetchResult → ScanEnv
  | err : Nat → String → List FetchResult → ScanEnv
deriving DecidableEq, Repr

/-- The prefix of the client loop that ran before the exception. -/
def processUpTo (k : Nat) (f : Client → Client) : List Client → List Client
  | [] => []
  | c :: cs =>
      match k with
      | 0 => c :: cs
      | k + 1 => f c :: processUpTo k f cs

/-- The `except` block of `run_email_checks` (lines 209-214): overwrite
status, timestamp and note of every client with the failure detail. -/
def imapErrorOverwrite (now : DateTime) (e : String) (c : Client) : Client :=
  { c with last_status := STATUS_MISSING,
           last_checked_at := some now,
           last_note := some ("Erreur IMAP: " ++ e) }

/-- The incomplete-configuration branch of `run_email_checks`
(lines 154-161). -/
def incompleteConfigOverwrite (now : DateTime) (c : Client) : Client :=
  { c with last_status := STATUS_MISSING,
           last_checked_at := some now,
           last_note := some "Configuration IMAP incomplète.",
           last_email_count := 0,
           last_statuses := none }

/-- src/app/email_service.py lines 140-215 as a pure function of the
client list, the configuration, the current instant and the transport
behaviour.  The returned boolean records whether a transport connection
was attempted (the body of the `try` was entered).  The function is total:
every exception of the source is caught inside `run_email_checks`, so no
outcome propagates to the caller, which the embedding reflects by always
returning a value. -/
def run_email_checks (env : ScanEnv) (clients : List Client)
    (config : EmailConfigM) (now : DateTime) : List Client × Bool :=
  let hours := get_window_hours config.check_window_start_hour config.check_window_end_hour
  let window := computeWindow now hours.1 hours.2
  if !imapConfigComplete config then
    (clients.map (incompleteConfigOverwrite now), false)
  else
    match env with
    | .ok msgs =>
        (clients.map (processClient msgs window.1 window.2 now), true)
    | .err k e msgs =>
        ((processUpTo k (processClient msgs window.1 window.2 now) clients).map
          (imapErrorOverwrite now e), true)

/-- src/app/email_service.py lines 347-352: split the raw recipient text
on commas, semicolons and newlines, trim each part, keep the non-empty
ones.  (`re.split` on a character-class-plus collapses runs of delimiters
into empty parts, which the truthiness filter then drops, so splitting on
single characters is equivalent.) -/
def parse_report_recipients (raw : String) : List String :=
  ((splitCharList (fun ch => ch = ',' || ch = ';' || ch = '\n') raw.data []).map
    pyStrip).filter (fun part => part ≠ "")

/-- `not (smtp_host and smtp_port and smtp_username and smtp_password)`
(lines 367-369); the port is an integer where `None` and `0` are falsy. -/
def missingSmtp (config : EmailConfigM) : Bool :=
  !(pyTruthyS config.smtp_host && pyTruthyI config.smtp_port &&
    pyTruthyS config.smtp_username && pyTruthyS config.smtp_password)

/-- src/app/email_service.py lines 355-411 as a pure function of the
configuration and the SMTP transport outcome.  Report-body construction
has no effect on the returned pair and is abstracted away.  The `except`
block turns any transport exception into a failure pair, so the function
is total and never propagates an exception. -/
def send_status_report (config : EmailConfigM)
    (transport : Except String Unit) : Bool × String :=
  let recipients := parse_report_recipients (pyOrStr config.report_recipients "")
  if recipients = [] then
    (false, "Aucun destinataire configuré pour le rapport.")
  else if missingSmtp config then
    (false, "Configuration SMTP incomplète pour l'envoi du rapport.")
  else
    match transport with
    | .ok _ => (true, "Rapport envoyé avec succès.")
    | .error e => (false, "Échec de l'envoi du rapport : " ++ e)

/-- One normalized prefix test of the classifier: the expected string,
lowercased and trimmed, is non-empty and starts the normalized subject. -/
def prefixMatches (expected subject : String) : Bool :=
  let expectedLower := pyStrip (pyLower expected)
  expectedLower ≠ "" && pyStartsWith (pyStrip (pyLower subject)) expectedLower

/-- A monitored entity with all expected-subject fields unset. -/
def clientAllEmpty : Client :=
  ⟨"empty", none, none, none, none, STATUS_MISSING, none, none, none, none, 0⟩

/-- A monitored entity whose WARNING prefix is a leading substring of its
OK prefix. -/
def clientOverlap : Client :=
  ⟨"overlap", none, some "Alert OK", some "Alert", some "Crash",
   STATUS_MISSING, none, none, none, none, 0⟩

/-- A monitored entity carrying output fields from an earlier run. -/
def clientWithHistory : Client :=
  ⟨"history", some "Backup OK - Client A", none, none, none, STATUS_OK,
   some ⟨-1, 32400000000⟩, none, some "Backup OK - Client A", some "OK", 1⟩

/-- A complete mailbox configuration. -/
def cfgComplete : EmailConfigM :=
  ⟨some "mail.example.com", some "user", some "pw", some "smtp.example.com",
   some 465, some "user", some "pw", some "ops@example.com",
   HourInput.numeric 16, HourInput.numeric 9⟩

/-- A mailbox configuration with no IMAP host. -/
def cfgIncomplete : EmailConfigM :=
  ⟨none, some "user", some "pw", some "smtp.example.com", some 465,
   some "user", some "pw", some "ops@example.com",
   HourInput.numeric 16, HourInput.numeric 9⟩

/-- A report configuration with no recipient and incomplete SMTP settings. -/
def cfgNoRecipients : EmailConfigM :=
  ⟨some "mail.example.com", some "user", some "pw", none, none, none, none,
   none, HourInput.numeric 16, HourInput.numeric 9⟩

/-- A report configuration with a recipient but incomplete SMTP settings. -/
def cfgRecipientNoSmtp : EmailConfigM :=
  ⟨some "mail.example.com", some "user", some "pw", none, none, none, none,
   some "ops@example.com", HourInput.numeric 16, HourInput.numeric 9⟩

/-- A fixed instant: day 0 at 08:00. -/
def now0 : DateTime := ⟨0, 28800000000⟩

theorem dtLe_refl (a : DateTime) : dtLe a a = true := by
  simp [dtLe]

theorem dtLt_imp_le (a b : DateTime) (h : dtLt a b = true) : dtLe a b = true := by
  simp [dtLt] at h
  simp [dtLe]
  omega

theorem extract_eq_ifchain (s : String) (c : Client) :
    extract_status_from_subject s c =
      (if prefixMatches c.subject_failed s then some STATUS_FAILED
       else if prefixMatches c.subject_warning s then some STATUS_WARNING
       else if prefixMatches c.subject_ok s then some STATUS_OK
       else none) := rfl

theorem prefixMatches_empty (t : String) : prefixMatches "" t = false := by
  have h0 : pyStrip (pyLower "") = "" := rfl
  simp [prefixMatches, h0]

/-- C1: the classifier lowercases and trims the subject and each expected
string, tests the severities in the fixed order FAILED, WARNING, OK, and
returns the first severity whose expected string is non-empty and a prefix
of the normalized subject, or no classification when none matches (this is
the equation with the spec-modelled `classifierSpec`); consequently an
entity whose three expected strings are all empty never receives a
severity for any subject, and a subject matching both the WARNING and the
OK prefixes while the FAILED prefix does not match is classified WARNING. -/
theorem extract_status_priority_order (s : String) (c : Client) :
    extract_status_from_subject s c = classifierSpec s c ∧
    (c.subject_failed = "" → c.subject_warning = "" → c.subject_ok = "" →
      extract_status_from_subject s c = none) ∧
    (prefixMatches c.subject_warning s = true →
      prefixMatches c.subject_ok s = true →
      prefixMatches c.subject_failed s = false →
      extract_status_from_subject s c = some STATUS_WARNING) := by
  refine ⟨rfl, ?_, ?_⟩
  · intro h1 h2 h3
    rw [extract_eq_ifchain, h1, h2, h3]
    simp [prefixMatches_empty]
  · intro hw ho hf
    rw [extract_eq_ifchain, hf, hw]
    simp

/-- Witness for C1: a client with every expected string empty classifies
nothing, and a subject matching both the overlapping WARNING and OK
prefixes is classified WARNING. -/
theorem extract_status_priority_order_witness :
    (clientAllEmpty.subject_failed = "" ∧ clientAllEmpty.subject_warning = "" ∧
      clientAllEmpty.subject_ok = "" ∧
      extract_status_from_subject "Backup finished" clientAllEmpty = none) ∧
    (prefixMatches clientOverlap.subject_warning "Alert OK done" = true ∧
      prefixMatches clientOverlap.subject_ok "Alert OK done" = true ∧
      prefixMatches clientOverlap.subject_failed "Alert OK done" = false ∧
      extract_status_from_subject "Alert OK done" clientOverlap =
        some STATUS_WARNING) :=
  ⟨⟨by decide, by decide, by decide,
    (extract_status_priority_order "Backup finished" clientAllEmpty).2.1
      (by decide) (by decide) (by decide)⟩,
   ⟨by decide, by decide, by decide,
    (extract_status_priority_order "Alert OK done" clientOverlap).2.2
      (by decide) (by decide) (by decide)⟩⟩

theorem bumpCount_failed (sc : StatusCounts) (x : String) :
    (bumpCount sc x).failed = sc.failed + (if x = STATUS_FAILED then 1 else 0) := by
  simp only [bumpCount]
  split_ifs with h1 h2 h3 <;>
    simp_all [STATUS_FAILED, STATUS_WARNING, STATUS_OK]

theorem bumpCount_warning (sc : StatusCounts) (x : String) :
    (bumpCount sc x).warning = sc.warning + (if x = STATUS_WARNING then 1 else 0) := by
  simp only [bumpCount]
  split_ifs with h1 h2 h3 <;>
    simp_all [STATUS_FAILED, STATUS_WARNING, STATUS_OK]

theorem bumpCount_ok (sc : StatusCounts) (x : String) :
    (bumpCount sc x).ok = sc.ok + (if x = STATUS_OK then 1 else 0) := by
  simp only [bumpCount]
  split_ifs with h1 h2 h3 <;>
    simp_all [STATUS_FAILED, STATUS_WARNING, STATUS_OK]

theorem foldl_bump_counts : ∀ (l : List String) (sc : StatusCounts),
    (l.foldl bumpCount sc).failed = sc.failed + l.count STATUS_FAILED ∧
    (l.foldl bumpCount sc).warning = sc.warning + l.count STATUS_WARNING ∧
    (l.foldl bumpCount sc).ok = sc.ok + l.count STATUS_OK := by
  intro l
  induction l with
  | nil => intro sc; simp
  | cons x xs ih =>
      intro sc
      simp only [List.foldl_cons, List.count_cons]
      obtain ⟨i1, i2, i3⟩ := ih (bumpCount sc x)
      refine ⟨?_, ?_, ?_⟩
      · rw [i1, bumpCount_failed]
        by_cases hx : x = STATUS_FAILED <;> simp [hx] <;> omega
      · rw [i2, bumpCount_warning]
        by_cases hx : x = STATUS_WARNING <;> simp [hx] <;> omega
      · rw [i3, bumpCount_ok]
        by_cases hx : x = STATUS_OK <;> simp [hx] <;> omega

theorem count_sum_eq_length : ∀ (l : List String),
    (∀ x ∈ l, x = STATUS_FAILED ∨ x = STATUS_WARNING ∨ x = STATUS_OK) →
    l.count STATUS_FAILED + l.count STATUS_WARNING + l.count STATUS_OK =
      l.length := by
  intro l
  induction l with
  | nil => intro _; simp
  | cons x xs ih =>
      intro hmem
      have hx := hmem x (by simp)
      have hxs : ∀ y ∈ xs, y = STATUS_FAILED ∨ y = STATUS_WARNING ∨ y = STATUS_OK :=
        fun y hy => hmem y (by simp [hy])
      have hrec := ih hxs
      rcases hx with h | h | h <;> subst h <;>
        simp [List.count_cons, STATUS_FAILED, STATUS_WARNING, STATUS_OK]
          at hrec ⊢ <;>
        omega

theorem countOf_mk_failed (f w o : Nat) :
    countOf ⟨f, w, o⟩ STATUS_FAILED = f := by
  simp [countOf]

theorem countOf_mk_warning (f w o : Nat) :
    countOf ⟨f, w, o⟩ STATUS_WARNING = w := by
  simp [countOf, STATUS_FAILED, STATUS_WARNING]

theorem countOf_mk_ok (f w o : Nat) :
    countOf ⟨f, w, o⟩ STATUS_OK = o := by
  simp [countOf, STATUS_FAILED, STATUS_WARNING, STATUS_OK]

theorem aggregate_overall (f w o : Nat) (htot : ¬(f + w + o = 0)) :
    (aggregateStatuses ⟨f, w, o⟩).1 =
      (if f ≠ 0 then some STATUS_FAILED
       else if w ≠ 0 then some STATUS_WARNING
       else some STATUS_OK) := by
  simp only [aggregateStatuses, htot, if_false, statusOrder, List.find?,
    countOf_mk_failed, countOf_mk_warning, countOf_mk_ok]
  by_cases h1 : f = 0 <;> by_cases h2 : w = 0 <;> by_cases h3 : o = 0 <;>
    simp [h1, h2, h3]
  omega

theorem aggregate_summary (f w o : Nat) (htot : ¬(f + w + o = 0)) :
    (aggregateStatuses ⟨f, w, o⟩).2.1 = some (summarySpec f w o) := by
  simp only [aggregateStatuses, htot, if_false, statusOrder,
    countOf_mk_failed, countOf_mk_warning, countOf_mk_ok]
  by_cases h1 : f = 0 <;> by_cases h2 : w = 0 <;> by_cases h3 : o = 0 <;>
    simp [h1, h2, h3, summarySpec, renderSeverity, countOf_mk_failed,
      countOf_mk_warning, countOf_mk_ok, Nat.pos_iff_ne_zero]

/-- C2: for every non-empty multiset of per-message classifications
tallied within one run, the reported email count is the number of
classified messages, the overall severity is the highest-priority severity
with a non-zero count under FAILED > WARNING > OK, and the summary is the
spec-modelled rendering (`summarySpec`): exactly the severities with
non-zero count, in priority order, as the name alone for count 1 and the
name followed by ×N for count N > 1. -/
theorem aggregate_totals_and_summary (l : List String)
    (hmem : ∀ x ∈ l, x = STATUS_FAILED ∨ x = STATUS_WARNING ∨ x = STATUS_OK)
    (hne : l ≠ []) :
    (aggregateStatuses (l.foldl bumpCount ⟨0, 0, 0⟩)).2.2 = l.length ∧
    (aggregateStatuses (l.foldl bumpCount ⟨0, 0, 0⟩)).1 =
      (if l.count STATUS_FAILED ≠ 0 then some STATUS_FAILED
       else if l.count STATUS_WARNING ≠ 0 then some STATUS_WARNING
       else some STATUS_OK) ∧
    (aggregateStatuses (l.foldl bumpCount ⟨0, 0, 0⟩)).2.1 =
      some (summarySpec (l.count STATUS_FAILED) (l.count STATUS_WARNING)
        (l.count STATUS_OK)) := by
  have hsc : l.foldl bumpCount ⟨0, 0, 0⟩ =
      ⟨l.count STATUS_FAILED, l.count STATUS_WARNING, l.count STATUS_OK⟩ := by
    obtain ⟨h1, h2, h3⟩ := foldl_bump_counts l ⟨0, 0, 0⟩
    rcases hq : l.foldl bumpCount ⟨0, 0, 0⟩ with ⟨a, b, cc⟩
    rw [hq] at h1 h2 h3
    simp at h1 h2 h3
    rw [h1, h2, h3]
  have hlen := count_sum_eq_length l hmem
  have htot : ¬(l.count STATUS_FAILED + l.count STATUS_WARNING +
      l.count STATUS_OK = 0) := by
    intro h0
    apply hne
    rw [h0] at hlen
    exact List.eq_nil_of_length_eq_zero hlen.symm
  rw [hsc]
  refine ⟨?_, aggregate_overall _ _ _ htot, aggregate_summary _ _ _ htot⟩
  simp only [aggregateStatuses, htot, if_false]
  exact hlen

/-- Witness for C2: one FAILED and two OK classifications give count 3,
overall FAILED, and the summary listing FAILED and OK ×2. -/
theorem aggregate_totals_and_summary_witness :
    (∀ x ∈ [STATUS_FAILED, STATUS_OK, STATUS_OK],
      x = STATUS_FAILED ∨ x = STATUS_WARNING ∨ x = STATUS_OK) ∧
    ([STATUS_FAILED, STATUS_OK, STATUS_OK] : List String) ≠ [] ∧
    ((aggregateStatuses
        (([STATUS_FAILED, STATUS_OK, STATUS_OK] : List String).foldl bumpCount
          ⟨0, 0, 0⟩)).2.2 =
        ([STATUS_FAILED, STATUS_OK, STATUS_OK] : List String).length ∧
      (aggregateStatuses
        (([STATUS_FAILED, STATUS_OK, STATUS_OK] : List String).foldl bumpCount
          ⟨0, 0, 0⟩)).1 =
        (if ([STATUS_FAILED, STATUS_OK, STATUS_OK] : List String).count
            STATUS_FAILED ≠ 0 then some STATUS_FAILED
         else if ([STATUS_FAILED, STATUS_OK, STATUS_OK] : List String).count
            STATUS_WARNING ≠ 0 then some STATUS_WARNING
         else some STATUS_OK) ∧
      (aggregateStatuses
        (([STATUS_FAILED, STATUS_OK, STATUS_OK] : List String).foldl bumpCount
          ⟨0, 0, 0⟩)).2.1 =
        some (summarySpec
          (([STATUS_FAILED, STATUS_OK, STATUS_OK] : List String).count STATUS_FAILED)
          (([STATUS_FAILED, STATUS_OK, STATUS_OK] : List String).count STATUS_WARNING)
          (([STATUS_FAILED, STATUS_OK, STATUS_OK] : List String).count STATUS_OK))) :=
  ⟨by decide, by decide,
   aggregate_totals_and_summary [STATUS_FAILED, STATUS_OK, STATUS_OK]
     (by decide) (by decide)⟩

/-- C3: the window calculator sets the start to the previous day at
start_hour:00:00.000, targets the end at today's end_hour:00:00.000, and
takes the minimum of the target and now (the result is at most now, at
most the target, and is one of the two), so the window never extends past
now; in particular for now = day D at 08:00 with start_hour 16 and
end_hour 9, the window is [D-1 16:00, D 08:00]. -/
theorem window_calculator_spec (now : DateTime) (sh eh : Int) (d : Int) :
    (computeWindow now sh eh).1 = ⟨now.day - 1, sh * 3600000000⟩ ∧
    (computeWindow now sh eh).2 =
      (if dtLt (replaceTime now eh) now then replaceTime now eh else now) ∧
    dtLe (computeWindow now sh eh).2 now = true ∧
    dtLe (computeWindow now sh eh).2 (replaceTime now eh) = true ∧
    ((computeWindow now sh eh).2 = replaceTime now eh ∨
      (computeWindow now sh eh).2 = now) ∧
    computeWindow ⟨d, 28800000000⟩ 16 9 = (⟨d - 1, 57600000000⟩, ⟨d, 28800000000⟩) := by
  refine ⟨rfl, rfl, ?_, ?_, ?_, ?_⟩
  · simp only [computeWindow]
    split
    · exact dtLt_imp_le _ _ (by assumption)
    · exact dtLe_refl now
  · simp only [computeWindow]
    split
    · exact dtLe_refl _
    · next h =>
      simp [dtLt, replaceTime] at h
      simp [dtLe, replaceTime]
      omega
  · simp only [computeWindow]
    split
    · exact Or.inl rfl
    · exact Or.inr rfl
  · simp [computeWindow, replaceTime, subOneDay, dtLt]

/-- C9: for sanitized hours in [0,23] the window start, one calendar day
before now, is strictly before the window end, which is on now's day and
clamped to now, so the inverted (empty) window can never be produced. -/
theorem window_never_inverted (now : DateTime) (sh eh : Int)
    (h1 : 0 ≤ sh) (h2 : sh ≤ 23) (h3 : 0 ≤ eh) (h4 : eh ≤ 23) :
    dtLt (computeWindow now sh eh).1 (computeWindow now sh eh).2 = true ∧
    dtLe (computeWindow now sh eh).2 now = true := by
  constructor
  · simp only [computeWindow]
    split <;> simp [dtLt, replaceTime, subOneDay] <;> omega
  · simp only [computeWindow]
    split
    · exact dtLt_imp_le _ _ (by assumption)
    · exact dtLe_refl now

/-- Witness for C9 at day 0, 08:00 with the default hours 16 and 9. -/
theorem window_never_inverted_witness :
    (0 : Int) ≤ 16 ∧ (16 : Int) ≤ 23 ∧ (0 : Int) ≤ 9 ∧ (9 : Int) ≤ 23 ∧
    (dtLt (computeWindow now0 16 9).1 (computeWindow now0 16 9).2 = true ∧
      dtLe (computeWindow now0 16 9).2 now0 = true) :=
  ⟨by decide, by decide, by decide, by decide,
   window_never_inverted now0 16 9 (by decide) (by decide) (by decide) (by decide)⟩

/-- Counterexample to C4 as stated: a configured start hour of 30 is
clamped to 23, not replaced by the default 16. -/
theorem sanitize_hour_claim_counterexample :
    _sanitize_hour (HourInput.numeric 30) DEFAULT_WINDOW_START_HOUR = 23 ∧
    _sanitize_hour (HourInput.numeric 30) DEFAULT_WINDOW_START_HOUR ≠ 16 ∧
    (get_window_hours (HourInput.numeric 30) (HourInput.numeric 9)).1 = 23 := by
  refine ⟨by decide, by decide, by decide⟩

/-- C4 amended: the sanitization used by get_window_hours replaces a
non-numeric value by the default (16 for the start hour, 9 for the end
hour) and clamps a numeric value into [0,23] — an in-range value is kept,
a value above 23 becomes 23 and a negative value becomes 0. -/
theorem sanitize_hour_clamps (n d : Int) (cfgS cfgE : HourInput) :
    _sanitize_hour HourInput.nonNumeric d = d ∧
    (0 ≤ n → n ≤ 23 → _sanitize_hour (HourInput.numeric n) d = n) ∧
    (23 < n → _sanitize_hour (HourInput.numeric n) d = 23) ∧
    (n < 0 → _sanitize_hour (HourInput.numeric n) d = 0) ∧
    get_window_hours cfgS cfgE =
      (_sanitize_hour cfgS 16, _sanitize_hour cfgE 9) := by
  refine ⟨rfl, ?_, ?_, ?_, rfl⟩ <;>
    · intros
      simp only [_sanitize_hour]
      omega

/-- Witness for the amended C4 at hours 5 (kept), 30 (clamped to 23) and
-2 (clamped to 0). -/
theorem sanitize_hour_clamps_witness :
    ((0 : Int) ≤ 5 ∧ (5 : Int) ≤ 23 ∧
      _sanitize_hour (HourInput.numeric 5) 16 = 5) ∧
    ((23 : Int) < 30 ∧ _sanitize_hour (HourInput.numeric 30) 16 = 23) ∧
    ((-2 : Int) < 0 ∧ _sanitize_hour (HourInput.numeric (-2)) 9 = 0) :=
  ⟨⟨by decide, by decide,
    (sanitize_hour_clamps 5 16 HourInput.nonNumeric HourInput.nonNumeric).2.1
      (by decide) (by decide)⟩,
   ⟨by decide,
    (sanitize_hour_clamps 30 16 HourInput.nonNumeric HourInput.nonNumeric).2.2.1
      (by decide)⟩,
   ⟨by decide,
    (sanitize_hour_clamps (-2) 9 HourInput.nonNumeric HourInput.nonNumeric).2.2.2.1
      (by decide)⟩⟩

/-- C6: with an incomplete mailbox configuration and a non-empty entity
list, the run makes no transport connection attempt and sets every
entity's status to MISSING with the fixed incomplete-configuration note,
an email count of 0 and no summary. -/
theorem run_email_checks_incomplete_config_skips_scan (env : ScanEnv)
    (clients : List Client) (config : EmailConfigM) (now : DateTime)
    (hcfg : imapConfigComplete config = false) (hne : clients ≠ []) :
    (run_email_checks env clients config now).2 = false ∧
    (run_email_checks env clients config now).1.map
        (fun c => (c.last_status, c.last_note, c.last_email_count,
                   c.last_statuses, c.last_checked_at)) =
      clients.map (fun _ => (STATUS_MISSING,
        some "Configuration IMAP incomplète.", 0, none, some now)) := by
  have hrun : run_email_checks env clients config now =
      (clients.map (incompleteConfigOverwrite now), false) := by
    simp [run_email_checks, hcfg]
  rw [hrun]
  refine ⟨rfl, ?_⟩
  rw [List.map_map]
  rfl

/-- Witness for C6: a configuration without an IMAP host and a one-entity
list. -/
theorem run_email_checks_incomplete_config_skips_scan_witness :
    imapConfigComplete cfgIncomplete = false ∧
    ([clientWithHistory] : List Client) ≠ [] ∧
    ((run_email_checks (ScanEnv.ok []) [clientWithHistory] cfgIncomplete now0).2 =
        false ∧
      (run_email_checks (ScanEnv.ok []) [clientWithHistory] cfgIncomplete
          now0).1.map
          (fun c => (c.last_status, c.last_note, c.last_email_count,
                     c.last_statuses, c.last_checked_at)) =
        ([clientWithHistory] : List Client).map
          (fun _ => (STATUS_MISSING, some "Configuration IMAP incomplète.",
            0, none, some now0))) :=
  ⟨by decide, by decide,
   run_email_checks_incomplete_config_skips_scan (ScanEnv.ok [])
     [clientWithHistory] cfgIncomplete now0 (by decide) (by decide)⟩

/-- C10: with an incomplete mailbox configuration the run overwrites
last_status, last_checked_at, last_note, last_email_count and
last_statuses of every entity but leaves last_subject unchanged, so a
subject persisted by an earlier successful run stays visible alongside
the MISSING status. -/
theorem incomplete_config_preserves_last_subject (env : ScanEnv)
    (clients : List Client) (config : EmailConfigM) (now : DateTime)
    (hcfg : imapConfigComplete config = false) :
    (run_email_checks env clients config now).1.map (fun c => c.last_subject) =
      clients.map (fun c => c.last_subject) ∧
    (run_email_checks env clients config now).1.map
        (fun c => (c.last_status, c.last_checked_at, c.last_note,
                   c.last_email_count, c.last_statuses)) =
      clients.map (fun _ => (STATUS_MISSING, some now,
        some "Configuration IMAP incomplète.", 0, none)) := by
  have hrun : run_email_checks env clients config now =
      (clients.map (incompleteConfigOverwrite now), false) := by
    simp [run_email_checks, hcfg]
  rw [hrun]
  constructor <;> (rw [List.map_map]; rfl)

/-- Witness for C10: the entity's previously persisted subject survives
the incomplete-configuration overwrite. -/
theorem incomplete_config_preserves_last_subject_witness :
    imapConfigComplete cfgIncomplete = false ∧
    ((run_email_checks (ScanEnv.ok []) [clientWithHistory] cfgIncomplete
        now0).1.map (fun c => c.last_subject) =
      ([clientWithHistory] : List Client).map (fun c => c.last_subject) ∧
     (run_email_checks (ScanEnv.ok []) [clientWithHistory] cfgIncomplete
        now0).1.map
        (fun c => (c.last_status, c.last_checked_at, c.last_note,
                   c.last_email_count, c.last_statuses)) =
      ([clientWithHistory] : List Client).map
        (fun _ => (STATUS_MISSING, some now0,
          some "Configuration IMAP incomplète.", 0, none))) :=
  ⟨by decide,
   incomplete_config_preserves_last_subject (ScanEnv.ok []) [clientWithHistory]
     cfgIncomplete now0 (by decide)⟩

theorem processUpTo_err_map (now : DateTime) (e : String) (f : Client → Client) :
    ∀ (l : List Client) (k : Nat),
      ((processUpTo k f l).map (imapErrorOverwrite now e)).map
          (fun c => (c.last_status, c.last_note, c.last_checked_at)) =
        l.map (fun _ => (STATUS_MISSING, some ("Erreur IMAP: " ++ e), some now)) := by
  intro l
  induction l with
  | nil => intro k; cases k <;> rfl
  | cons c cs ih =>
      intro k
      cases k with
      | zero =>
          simp only [processUpTo, List.map_cons, List.map_map]
          rfl
      | succ k =>
          simp only [processUpTo, List.map_cons]
          rw [ih k]
          rfl

theorem processUpTo_length (f : Client → Client) :
    ∀ (l : List Client) (k : Nat), (processUpTo k f l).length = l.length := by
  intro l
  induction l with
  | nil => intro k; cases k <;> rfl
  | cons c cs ih =>
      intro k
      cases k with
      | zero => rfl
      | succ k => simp [processUpTo, ih k]

/-- C5: when a transport failure is raised after the configuration
pre-check passed — whether at connect/login/search time (k = 0) or after
k entities of the loop were already processed — the run marks every
entity MISSING with a note carrying the failure detail, stamps its
checked-at timestamp, keeps exactly one outcome per entity (no entity
remains marked as successfully checked), and, being a total function,
never propagates the exception to the scheduler or caller. -/
theorem run_email_checks_transport_failure_marks_missing
    (clients : List Client) (config : EmailConfigM) (now : DateTime)
    (k : Nat) (e : String) (msgs : List FetchResult)
    (hcfg : imapConfigComplete config = true) :
    (run_email_checks (.err k e msgs) clients config now).1.map
        (fun c => (c.last_status, c.last_note, c.last_checked_at)) =
      clients.map (fun _ => (STATUS_MISSING, some ("Erreur IMAP: " ++ e),
        some now)) ∧
    (run_email_checks (.err k e msgs) clients config now).1.length =
      clients.length := by
  have hrun : run_email_checks (.err k e msgs) clients config now =
      ((processUpTo k (processClient msgs
          (computeWindow now (get_window_hours config.check_window_start_hour
            config.check_window_end_hour).1
            (get_window_hours config.check_window_start_hour
              config.check_window_end_hour).2).1
          (computeWindow now (get_window_hours config.check_window_start_hour
            config.check_window_end_hour).1
            (get_window_hours config.check_window_start_hour
              config.check_window_end_hour).2).2 now) clients).map
        (imapErrorOverwrite now e), true) := by
    simp [run_email_checks, hcfg]
  rw [hrun]
  refine ⟨processUpTo_err_map now e _ clients k, ?_⟩
  rw [List.length_map, processUpTo_length]

/-- Witness for C5: a connect-time failure with one monitored entity. -/
theorem run_email_checks_transport_failure_marks_missing_witness :
    imapConfigComplete cfgComplete = true ∧
    ((run_email_checks (.err 0 "connexion refusée" []) [clientWithHistory]
        cfgComplete now0).1.map
        (fun c => (c.last_status, c.last_note, c.last_checked_at)) =
      ([clientWithHistory] : List Client).map
        (fun _ => (STATUS_MISSING,
          some ("Erreur IMAP: " ++ "connexion refusée"), some now0)) ∧
     (run_email_checks (.err 0 "connexion refusée" []) [clientWithHistory]
        cfgComplete now0).1.length =
      ([clientWithHistory] : List Client).length) :=
  ⟨by decide,
   run_email_checks_transport_failure_marks_missing [clientWithHistory]
     cfgComplete now0 0 "connexion refusée" [] (by decide)⟩

/-- C7: the dispatcher checks its preconditions in order and reports each
as a distinct failure value instead of raising: an empty recipient list
(after splitting on comma, semicolon and newline and trimming) fails with
the recipient-specific message regardless of the transport configuration;
only otherwise an incomplete SMTP configuration fails with the
transport-configuration message; and a true success flag only ever comes
with the success message. -/
theorem send_status_report_precondition_order (config : EmailConfigM)
    (transport : Except String Unit) :
    (parse_report_recipients (pyOrStr config.report_recipients "") = [] →
      send_status_report config transport =
        (false, "Aucun destinataire configuré pour le rapport.")) ∧
    (parse_report_recipients (pyOrStr config.report_recipients "") ≠ [] →
      missingSmtp config = true →
      send_status_report config transport =
        (false, "Configuration SMTP incomplète pour l'envoi du rapport.")) ∧
    ((send_status_report config transport).1 = true →
      send_status_report config transport =
        (true, "Rapport envoyé avec succès.")) := by
  refine ⟨?_, ?_, ?_⟩
  · intro h
    simp [send_status_report, h]
  · intro h1 h2
    simp [send_status_report, h1, h2]
  · intro h
    simp only [send_status_report] at h ⊢
    split at h
    · simp at h
    · next hrec =>
        split at h
        · simp at h
        · next hsmtp =>
            cases transport with
            | ok u => simp [hrec, hsmtp]
            | error e => simp at h

/-- Witness for C7: with no recipient and an equally incomplete SMTP
configuration the recipient message wins; with a recipient and missing
SMTP settings the transport message is reported. -/
theorem send_status_report_precondition_order_witness :
    (parse_report_recipients (pyOrStr cfgNoRecipients.report_recipients "") = [] ∧
      missingSmtp cfgNoRecipients = true ∧
      send_status_report cfgNoRecipients (Except.ok ()) =
        (false, "Aucun destinataire configuré pour le rapport.")) ∧
    (parse_report_recipients (pyOrStr cfgRecipientNoSmtp.report_recipients "") ≠ [] ∧
      missingSmtp cfgRecipientNoSmtp = true ∧
      send_status_report cfgRecipientNoSmtp (Except.ok ()) =
        (false, "Configuration SMTP incomplète pour l'envoi du rapport.")) :=
  ⟨⟨by decide, by decide,
    (send_status_report_precondition_order cfgNoRecipients (Except.ok ())).1
      (by decide)⟩,
   ⟨by decide, by decide,
    (send_status_report_precondition_order cfgRecipientNoSmtp (Except.ok ())).2.1
      (by decide) (by decide)⟩⟩

theorem extract_congr (subj : String) (c1 c2 : Client)
    (h2 : c1.expected_subject = c2.expected_subject)
    (h3 : c1.expected_subject_ok = c2.expected_subject_ok)
    (h4 : c1.expected_subject_warning = c2.expected_subject_warning)
    (h5 : c1.expected_subject_failed = c2.expected_subject_failed) :
    extract_status_from_subject subj c1 = extract_status_from_subject subj c2 := by
  unfold extract_status_from_subject Client.subject_ok Client.subject_warning
    Client.subject_failed
  rw [h2, h3, h4, h5]

theorem processMessage_congr (s e : DateTime) (c1 c2 : Client)
    (h2 : c1.expected_subject = c2.expected_subject)
    (h3 : c1.expected_subject_ok = c2.expected_subject_ok)
    (h4 : c1.expected_subject_warning = c2.expected_subject_warning)
    (h5 : c1.expected_subject_failed = c2.expected_subject_failed) :
    processMessage c1 s e = processMessage c2 s e := by
  funext st m
  cases m with
  | fetchFailed => rfl
  | fetched od subj =>
      cases od with
      | none => rfl
      | some d =>
          simp only [processMessage]
          rw [extract_congr subj c1 c2 h2 h3 h4 h5]

theorem find_matching_subject_congr (msgs : List FetchResult) (s e : DateTime)
    (c1 c2 : Client)
    (h2 : c1.expected_subject = c2.expected_subject)
    (h3 : c1.expected_subject_ok = c2.expected_subject_ok)
    (h4 : c1.expected_subject_warning = c2.expected_subject_warning)
    (h5 : c1.expected_subject_failed = c2.expected_subject_failed) :
    find_matching_subject msgs c1 s e = find_matching_subject msgs c2 s e := by
  unfold find_matching_subject
  rw [processMessage_congr s e c1 c2 h2 h3 h4 h5]

theorem processClient_preserves (msgs : List FetchResult) (s e n : DateTime)
    (c : Client) :
    (processClient msgs s e n c).name = c.name ∧
    (processClient msgs s e n c).expected_subject = c.expected_subject ∧
    (processClient msgs s e n c).expected_subject_ok = c.expected_subject_ok ∧
    (processClient msgs s e n c).expected_subject_warning =
      c.expected_subject_warning ∧
    (processClient msgs s e n c).expected_subject_failed =
      c.expected_subject_failed := by
  refine ⟨?_, ?_, ?_, ?_, ?_⟩ <;>
    · simp only [processClient, applyFindResult]
      split
      · split <;> rfl
      · rfl

theorem applyFindResult_congr (s e n : DateTime) (r : FindResult)
    (c1 c2 : Client)
    (h1 : c1.name = c2.name)
    (h2 : c1.expected_subject = c2.expected_subject)
    (h3 : c1.expected_subject_ok = c2.expected_subject_ok)
    (h4 : c1.expected_subject_warning = c2.expected_subject_warning)
    (h5 : c1.expected_subject_failed = c2.expected_subject_failed) :
    applyFindResult s e n r c1 = applyFindResult s e n r c2 := by
  cases c1
  cases c2
  simp only at h1 h2 h3 h4 h5
  subst h1 h2 h3 h4 h5
  simp only [applyFindResult]
  split
  · split <;> rfl
  · rfl

theorem processClient_congr (msgs : List FetchResult) (s e n : DateTime)
    (c1 c2 : Client)
    (h1 : c1.name = c2.name)
    (h2 : c1.expected_subject = c2.expected_subject)
    (h3 : c1.expected_subject_ok = c2.expected_subject_ok)
    (h4 : c1.expected_subject_warning = c2.expected_subject_warning)
    (h5 : c1.expected_subject_failed = c2.expected_subject_failed) :
    processClient msgs s e n c1 = processClient msgs s e n c2 := by
  unfold processClient
  rw [find_matching_subject_congr msgs s e c1 c2 h2 h3 h4 h5]
  exact applyFindResult_congr s e n _ c1 c2 h1 h2 h3 h4 h5

theorem processClient_idem (msgs : List FetchResult) (s e n : DateTime)
    (c : Client) :
    processClient msgs s e n (processClient msgs s e n c) =
      processClient msgs s e n c := by
  have h := processClient_preserves msgs s e n c
  exact processClient_congr msgs s e n _ c h.1 h.2.1 h.2.2.1 h.2.2.2.1 h.2.2.2.2

theorem incompleteConfigOverwrite_idem (now : DateTime) (c : Client) :
    incompleteConfigOverwrite now (incompleteConfigOverwrite now c) =
      incompleteConfigOverwrite now c := rfl

theorem imapErrorOverwrite_idem (now : DateTime) (e : String) (c : Client) :
    imapErrorOverwrite now e (imapErrorOverwrite now e c) =
      imapErrorOverwrite now e c := rfl

theorem processClient_after_err (msgs : List FetchResult) (s e n : DateTime)
    (er : String) (c : Client) :
    processClient msgs s e n (imapErrorOverwrite n er (processClient msgs s e n c)) =
      processClient msgs s e n c := by
  have h := processClient_preserves msgs s e n c
  exact processClient_congr msgs s e n _ c h.1 h.2.1 h.2.2.1 h.2.2.2.1 h.2.2.2.2

theorem err_path_idem (msgs : List FetchResult) (s e n : DateTime) (er : String) :
    ∀ (clients : List Client) (k : Nat),
      (processUpTo k (processClient msgs s e n)
          ((processUpTo k (processClient msgs s e n) clients).map
            (imapErrorOverwrite n er))).map (imapErrorOverwrite n er) =
        (processUpTo k (processClient msgs s e n) clients).map
          (imapErrorOverwrite n er) := by
  intro clients
  induction clients with
  | nil => intro k; cases k <;> rfl
  | cons c cs ih =>
      intro k
      cases k with
      | zero =>
          simp only [processUpTo, List.map_cons, List.map_map]
          rw [imapErrorOverwrite_idem]
          congr 1
      | succ k =>
          simp only [processUpTo, List.map_cons]
          rw [processClient_after_err, ih k]

/-- C8: with a fixed transport behaviour (same message list and fetch
results, or the same failure point), fixed configuration and unchanged
now, running the reconciliation a second time on the output of the first
run reproduces exactly the same entity records: the run is a function of
the matching rules, which it never modifies, so the second pass recomputes
and overwrites the same values and leaves no state a retry could corrupt. -/
theorem run_email_checks_idempotent (env : ScanEnv) (clients : List Client)
    (config : EmailConfigM) (now : DateTime) :
    run_email_checks env (run_email_checks env clients config now).1 config now =
      run_email_checks env clients config now := by
  cases hcfg : imapConfigComplete config with
  | false =>
      simp only [run_email_checks, hcfg, Bool.not_false, if_true]
      rw [List.map_map]
      apply congrArg (fun l => (l, false))
      apply List.map_congr_left
      intro a _
      exact incompleteConfigOverwrite_idem now a
  | true =>
      cases env with
      | ok msgs =>
          simp only [run_email_checks, hcfg, Bool.not_true, Bool.false_eq_true,
            if_false]
          rw [List.map_map]
          apply congrArg (fun l => (l, true))
          apply List.map_congr_left
          intro a _
          exact processClient_idem msgs _ _ now a
      | err k e msgs =>
          simp only [run_email_checks, hcfg, Bool.not_true, Bool.false_eq_true,
            if_false]
          rw [err_path_idem]
